import Mathlib

/-!
Verification development for `pixel_rpg_ui.py`: a keyboard-driven UI state
machine (title / settings / credits / character-select / name-entry screens)
with two sliders, a focus cycle, a selected-character index and a bounded
name buffer.

The embedding below translates the decision logic of the script: the
`Slider` dataclass with its `adjust` method, the module-level mutable state
(`state`, `title_focus_index`, `settings_focus_index`, `vol_slider`,
`bri_slider`, `selected_char`, `typed_name`) collected into a `UIState`
record, and the `KEYDOWN` dispatch of `main()` as the function `handle`.

CPython floats are IEEE-754 binary64 values, and slider arithmetic in the
script is float arithmetic; slider values are therefore modelled as exact
rationals together with an explicit round-to-nearest-even function
`roundDouble` applied after every addition and to every decimal literal,
mirroring the binary64 semantics in the normal range (subnormal and
overflow handling is omitted: every value arising in this program is either
0 or has magnitude between 2 ^ (-60) and 2, far inside the normal range).
-/

namespace PixelRpg

/-- Two to an integer power, as a rational. -/
def pow2 (e : ℤ) : ℚ :=
  if 0 ≤ e then ((2 ^ e.toNat : ℕ) : ℚ) else 1 / ((2 ^ (-e).toNat : ℕ) : ℚ)

/-- Round a rational to the nearest integer, ties to the even integer
(the rounding of IEEE-754 round-to-nearest-even). -/
def roundHalfEven (x : ℚ) : ℤ :=
  let f := ⌊x⌋
  let r := x - (f : ℚ)
  if r < 1 / 2 then f
  else if 1 / 2 < r then f + 1
  else if f % 2 = 0 then f else f + 1

/-- Scale a positive rational `q` (tracking the invariant value `q * 2 ^ e`)
into the binade `[2 ^ 52, 2 ^ 53)`, then round its significand to an
integer, ties to even.  The fuel argument bounds the number of doublings or
halvings; 700 is far more than any value arising here needs. -/
def roundScaled : ℕ → ℚ → ℤ → ℚ
  | 0, q, e => q * pow2 e
  | n + 1, q, e =>
    if q < (2 : ℚ) ^ (52 : ℕ) then roundScaled n (q * 2) (e - 1)
    else if (2 : ℚ) ^ (53 : ℕ) ≤ q then roundScaled n (q / 2) (e + 1)
    else ((roundHalfEven q : ℤ) : ℚ) * pow2 e

/-- Round-to-nearest-even for IEEE-754 binary64 in the normal range: the
result of every CPython float addition, and the value of every CPython
float literal, is `roundDouble` of the exact rational result. -/
def roundDouble (q : ℚ) : ℚ :=
  if q = 0 then 0
  else if q < 0 then -roundScaled 700 (-q) 0
  else roundScaled 700 q 0

/-- Addition of two Python floats: exact rational sum, then one binary64
rounding. -/
def fladd (a b : ℚ) : ℚ := roundDouble (a + b)

/-- The `Slider` dataclass: `rect` is pure rendering geometry and is not
modelled; `label` and the normalized `value` are kept. -/
structure Slider where
  label : String
  value : ℚ
deriving DecidableEq, Repr

/-- `Slider.adjust`: `self.value = max(0.0, min(1.0, self.value + delta))`.
The addition is one rounded float operation; `min` and `max` compare
exactly. -/
def Slider.adjust (s : Slider) (delta : ℚ) : Slider :=
  { s with value := max 0 (min 1 (fladd s.value delta)) }

/-- The six screen identifiers `TITLE, SETTINGS, CREDITS, CHAR_SELECT,
NAME_SELECT, NEXT_PAGE = range(6)`. -/
inductive Scr where
  | TITLE
  | SETTINGS
  | CREDITS
  | CHAR_SELECT
  | NAME_SELECT
  | NEXT_PAGE
deriving DecidableEq, Repr

/-- The pygame key codes the script inspects.  Every key other than
W/A/S/D/SPACE/BACKSPACE is only ever seen through `event.unicode`, so a
single constructor `K_OTHER` stands for all of them. -/
inductive PyKey where
  | K_w
  | K_a
  | K_s
  | K_d
  | K_SPACE
  | K_BACKSPACE
  | K_OTHER
deriving DecidableEq, Repr

/-- A pygame `KEYDOWN` event: the key code and `event.unicode`.
`none` models the empty `unicode` string (the script tests
`ch.isprintable() and ch != ""`, so an empty string never appends). -/
structure KeyEvent where
  key : PyKey
  unicode : Option Char
deriving DecidableEq, Repr

/-- Python's `str.isprintable` on a single character, modelled on the ASCII
range (codepoints 0x20 to 0x7E are printable, ASCII control characters are
not).  Non-ASCII printability is modelled conservatively as false. -/
def pyIsPrintable (c : Char) : Bool :=
  0x20 ≤ c.toNat && c.toNat ≤ 0x7E

/-- The character catalog `CHARS`: three entries of name and body color. -/
def CHARS : List (String × (ℕ × ℕ × ℕ)) :=
  [("Sprout", (90, 200, 90)), ("Ember", (210, 90, 60)), ("Aqua", (70, 120, 220))]

/-- All module-level mutable state of the script that the `KEYDOWN`
dispatch reads or writes, as one record. -/
structure UIState where
  state : Scr
  title_focus_index : ℤ
  settings_focus_index : ℤ
  vol_slider : Slider
  bri_slider : Slider
  selected_char : ℤ
  typed_name : List Char
deriving DecidableEq, Repr

/-- The focus-cycle step `(current + delta) mod count`, with the
always-non-negative modulo of Python's `%` on a positive modulus
(Lean's `Int.emod` agrees with Python's `%` for a positive modulus). -/
def step (current count delta : ℤ) : ℤ :=
  (current + delta) % count

/-- The `KEYDOWN` branch of `main()`: dispatch on the current screen,
then on the key, mutating exactly the fields the script mutates. -/
def handle (event : KeyEvent) (s : UIState) : UIState :=
  match s.state with
  | Scr.TITLE =>
    let s :=
      if event.key = PyKey.K_w ∨ event.key = PyKey.K_s ∨
          event.key = PyKey.K_a ∨ event.key = PyKey.K_d then
        let delta : ℤ :=
          if event.key = PyKey.K_a ∨ event.key = PyKey.K_w then -1 else 1
        { s with title_focus_index := (s.title_focus_index + delta) % 3 }
      else s
    if event.key = PyKey.K_SPACE then
      if s.title_focus_index = 0 then { s with state := Scr.CHAR_SELECT }
      else if s.title_focus_index = 1 then { s with state := Scr.CREDITS }
      else if s.title_focus_index = 2 then { s with state := Scr.SETTINGS }
      else s
    else s
  | Scr.SETTINGS =>
    let s :=
      if event.key = PyKey.K_w ∨ event.key = PyKey.K_s then
        { s with settings_focus_index :=
            (s.settings_focus_index +
              (if event.key = PyKey.K_w then -1 else 1)) % 2 }
      else s
    let s :=
      if event.key = PyKey.K_a ∨ event.key = PyKey.K_d then
        let delta : ℚ :=
          if event.key = PyKey.K_a then -roundDouble (5 / 100)
          else roundDouble (5 / 100)
        if s.settings_focus_index = 0 then
          { s with vol_slider := s.vol_slider.adjust delta }
        else
          { s with bri_slider := s.bri_slider.adjust delta }
      else s
    if event.key = PyKey.K_SPACE then { s with state := Scr.TITLE } else s
  | Scr.CREDITS =>
    if event.key = PyKey.K_SPACE then { s with state := Scr.TITLE } else s
  | Scr.CHAR_SELECT =>
    let s :=
      if event.key = PyKey.K_a then
        { s with selected_char := (s.selected_char - 1) % (CHARS.length : ℤ) }
      else s
    let s :=
      if event.key = PyKey.K_d then
        { s with selected_char := (s.selected_char + 1) % (CHARS.length : ℤ) }
      else s
    if event.key = PyKey.K_SPACE then { s with state := Scr.NAME_SELECT } else s
  | Scr.NAME_SELECT =>
    if event.key = PyKey.K_SPACE then { s with state := Scr.NEXT_PAGE }
    else if event.key = PyKey.K_BACKSPACE then
      { s with typed_name := s.typed_name.dropLast }
    else
      match event.unicode with
      | none => s
      | some ch =>
        if pyIsPrintable ch then
          if s.typed_name.length < 16 then
            { s with typed_name := s.typed_name ++ [ch] }
          else s
        else s
  | Scr.NEXT_PAGE => s

/-- The volume slider as constructed: `Slider(..., "VOLUME", value=0.7)`;
the literal `0.7` is the binary64 rounding of 7/10. -/
def vol_slider : Slider := { label := "VOLUME", value := roundDouble (7 / 10) }

/-- The brightness slider as constructed: value the binary64 rounding of
6/10. -/
def bri_slider : Slider := { label := "BRIGHTNESS", value := roundDouble (6 / 10) }

/-- The initial program state: `state = TITLE`, both focus indices 0,
`selected_char = 0`, `typed_name = ""`, sliders as constructed. -/
def initState : UIState where
  state := Scr.TITLE
  title_focus_index := 0
  settings_focus_index := 0
  vol_slider := vol_slider
  bri_slider := bri_slider
  selected_char := 0
  typed_name := []

/-- Run a list of key events through `handle` from a starting state. -/
def runEvents (s : UIState) (events : List KeyEvent) : UIState :=
  events.foldl (fun st e => handle e st) s

end PixelRpg

namespace PixelRpg

set_option allowUnsafeReducibility true
set_option maxRecDepth 100000
set_option maxHeartbeats 2000000

/-- One `adjust` call leaves the value at least 0. -/
theorem Slider.adjust_value_nonneg (s : Slider) (d : ℚ) : 0 ≤ (s.adjust d).value :=
  le_max_left 0 _

/-- One `adjust` call leaves the value at most 1. -/
theorem Slider.adjust_value_le_one (s : Slider) (d : ℚ) : (s.adjust d).value ≤ 1 :=
  max_le (by norm_num) (min_le_left 1 _)

/-- Folding any delta sequence through `adjust` keeps the value in the unit
interval, given it starts there. -/
theorem foldl_adjust_mem (ds : List ℚ) :
    ∀ s : Slider, 0 ≤ s.value → s.value ≤ 1 →
      0 ≤ (ds.foldl Slider.adjust s).value ∧ (ds.foldl Slider.adjust s).value ≤ 1 := by
  induction ds with
  | nil => exact fun s h0 h1 => ⟨h0, h1⟩
  | cons d ds ih =>
    intro s h0 h1
    simpa only [List.foldl_cons] using
      ih (s.adjust d) (Slider.adjust_value_nonneg s d) (Slider.adjust_value_le_one s d)

section
attribute [local semireducible] Rat.add Rat.mul Rat.div Rat.sub Rat.neg Rat.inv

/-- C1: for both slider instances (volume and brightness) and every finite
sequence of `adjust` calls with arbitrary deltas, the slider's value after
the sequence lies in `[0, 1]`; `adjust` clamps on every mutation. -/
theorem C1_slider_values_stay_in_unit_interval (ds : List ℚ) :
    (0 ≤ (ds.foldl Slider.adjust vol_slider).value ∧
      (ds.foldl Slider.adjust vol_slider).value ≤ 1) ∧
    (0 ≤ (ds.foldl Slider.adjust bri_slider).value ∧
      (ds.foldl Slider.adjust bri_slider).value ≤ 1) :=
  ⟨foldl_adjust_mem ds vol_slider (by decide) (by decide),
   foldl_adjust_mem ds bri_slider (by decide) (by decide)⟩

end

/-- C2: on the Title screen, the Confirm key (SPACE) sends focus 0 to
CharacterSelect, focus 1 to Credits, focus 2 to Settings, changing no field
other than the current screen. -/
theorem C2_title_confirm_transitions (s : UIState) (u : Option Char)
    (hs : s.state = Scr.TITLE) :
    (s.title_focus_index = 0 →
      handle ⟨PyKey.K_SPACE, u⟩ s = { s with state := Scr.CHAR_SELECT }) ∧
    (s.title_focus_index = 1 →
      handle ⟨PyKey.K_SPACE, u⟩ s = { s with state := Scr.CREDITS }) ∧
    (s.title_focus_index = 2 →
      handle ⟨PyKey.K_SPACE, u⟩ s = { s with state := Scr.SETTINGS }) := by
  obtain ⟨st, tfi, sfi, vs, bs, sc, tn⟩ := s
  obtain rfl : st = Scr.TITLE := hs
  refine ⟨fun hf => ?_, fun hf => ?_, fun hf => ?_⟩ <;>
    obtain rfl : tfi = _ := hf <;> rfl

/-- C2 witness: from the initial state (Title, focus 0), Confirm goes to
CharacterSelect. -/
theorem C2_title_confirm_transitions_witness :
    handle ⟨PyKey.K_SPACE, some ' '⟩ initState =
      { initState with state := Scr.CHAR_SELECT } :=
  (C2_title_confirm_transitions initState (some ' ') rfl).1 rfl

section
attribute [local semireducible] Rat.add Rat.mul Rat.div Rat.sub Rat.neg Rat.inv

/-- C3 counterexample: at Settings with focus on Volume (value the float
literal 0.7), one Right press followed by three Left presses does not leave
the volume at exactly 3/5 = 0.6; binary64 rounding leaves it one unit in
the last place below 0.6. -/
theorem C3_volume_scenario_counterexample :
    ¬ ((handle ⟨PyKey.K_d, some 'd'⟩
          { initState with state := Scr.SETTINGS }).vol_slider.value = 3 / 4 ∧
       (runEvents { initState with state := Scr.SETTINGS }
          [⟨PyKey.K_d, some 'd'⟩, ⟨PyKey.K_a, some 'a'⟩,
           ⟨PyKey.K_a, some 'a'⟩, ⟨PyKey.K_a, some 'a'⟩]).vol_slider.value = 3 / 5) := by
  decide

/-- C3 amended: at Settings with focus on Volume (value the float literal
0.7), one Right press makes the volume exactly 3/4 = 0.75, and three
further Left presses make it exactly 2702159776422297/4503599627370496
(the binary64 value printed as 0.5999999999999999, one unit in the last
place below 0.6): each press performs one rounded binary64 addition of the
rounded step 0.05. -/
theorem C3_volume_scenario_amended :
    (handle ⟨PyKey.K_d, some 'd'⟩
        { initState with state := Scr.SETTINGS }).vol_slider.value = 3 / 4 ∧
    (runEvents { initState with state := Scr.SETTINGS }
        [⟨PyKey.K_d, some 'd'⟩, ⟨PyKey.K_a, some 'a'⟩,
         ⟨PyKey.K_a, some 'a'⟩, ⟨PyKey.K_a, some 'a'⟩]).vol_slider.value =
      2702159776422297 / 4503599627370496 := by
  decide

end

/-- C4: for every positive count and every index in range, stepping the
focus cycle forward then backward returns the original index. -/
theorem C4_step_cycle_invertible (count current : ℤ) (_h0 : 0 < count)
    (h1 : 0 ≤ current) (h2 : current < count) :
    step (step current count 1) count (-1) = current := by
  unfold step
  have h3 : ((current + 1) % count + -1) % count = ((current + 1) + -1) % count := by
    conv_rhs => rw [Int.add_emod]
    rw [Int.add_emod ((current + 1) % count) (-1),
      Int.emod_emod_of_dvd _ (dvd_refl count)]
  have h4 : current + 1 + -1 = current := by ring
  rw [h3, h4]
  exact Int.emod_eq_of_lt h1 h2

/-- C4 witness: stepping forward then backward from index 2 of 3 gives 2. -/
theorem C4_step_cycle_invertible_witness :
    step (step 2 3 1) 3 (-1) = 2 :=
  C4_step_cycle_invertible 3 2 (by decide) (by decide) (by decide)


/-- C5: on the NameEntry screen with the buffer already at length 16, any
key event carrying a character is dropped: the buffer keeps its contents
and its length.  The Backspace key is excluded because real backspace
events carry the non-printable control character U+0008, never a printable
one. -/
theorem C5_full_buffer_drops_keystroke (s : UIState) (k : PyKey) (ch : Char)
    (hs : s.state = Scr.NAME_SELECT) (hlen : s.typed_name.length = 16)
    (hk : k ≠ PyKey.K_BACKSPACE) :
    (handle ⟨k, some ch⟩ s).typed_name = s.typed_name ∧
    (handle ⟨k, some ch⟩ s).typed_name.length = 16 := by
  obtain ⟨st, tfi, sfi, vs, bs, sc, tn⟩ := s
  obtain rfl : st = Scr.NAME_SELECT := hs
  have hlt : ¬ (tn.length < 16) := by
    simp only [List.length] at hlen ⊢
    omega
  cases k <;>
    first
      | exact absurd rfl hk
      | exact ⟨rfl, hlen⟩
      | (refine ⟨?_, ?_⟩ <;> simp [handle, hlt, hlen])

/-- C5 witness: with a 16-character buffer on NameEntry, typing a printable
character leaves the buffer unchanged. -/
theorem C5_full_buffer_drops_keystroke_witness :
    (handle ⟨PyKey.K_OTHER, some 'z'⟩
        { initState with state := Scr.NAME_SELECT,
                         typed_name := List.replicate 16 'x' }).typed_name =
      List.replicate 16 'x' :=
  (C5_full_buffer_drops_keystroke
    { initState with state := Scr.NAME_SELECT, typed_name := List.replicate 16 'x' }
    PyKey.K_OTHER 'z' rfl (by decide) (by decide)).1

/-- C6: on the NameEntry screen, Backspace removes the last character of
the buffer (and changes nothing else), and is a no-op on an empty
buffer. -/
theorem C6_backspace_pops_or_noop (s : UIState) (u : Option Char)
    (hs : s.state = Scr.NAME_SELECT) :
    handle ⟨PyKey.K_BACKSPACE, u⟩ s =
      { s with typed_name := s.typed_name.dropLast } ∧
    (s.typed_name = [] → handle ⟨PyKey.K_BACKSPACE, u⟩ s = s) := by
  obtain ⟨st, tfi, sfi, vs, bs, sc, tn⟩ := s
  obtain rfl : st = Scr.NAME_SELECT := hs
  refine ⟨rfl, ?_⟩
  rintro rfl
  rfl

/-- C6 witness: Backspace on NameEntry with an empty buffer leaves the
whole state unchanged. -/
theorem C6_backspace_pops_or_noop_witness :
    handle ⟨PyKey.K_BACKSPACE, some (Char.ofNat 8)⟩
        { initState with state := Scr.NAME_SELECT } =
      { initState with state := Scr.NAME_SELECT } :=
  (C6_backspace_pops_or_noop
    { initState with state := Scr.NAME_SELECT } (some (Char.ofNat 8)) rfl).2 rfl

/-- Any event received on the Placeholder screen leaves the state
unchanged: no branch of the dispatch matches `NEXT_PAGE`. -/
theorem handle_nextpage (e : KeyEvent) (s : UIState)
    (hs : s.state = Scr.NEXT_PAGE) : handle e s = s := by
  obtain ⟨st, tfi, sfi, vs, bs, sc, tn⟩ := s
  obtain rfl : st = Scr.NEXT_PAGE := hs
  rfl

/-- C7: the Placeholder screen is absorbing: once the current screen is
`NEXT_PAGE`, every finite sequence of key events leaves the entire state
unchanged. -/
theorem C7_placeholder_absorbing (s : UIState) (hs : s.state = Scr.NEXT_PAGE)
    (events : List KeyEvent) : runEvents s events = s := by
  induction events with
  | nil => rfl
  | cons e es ih =>
    simp only [runEvents, List.foldl_cons] at ih ⊢
    rw [handle_nextpage e s hs]
    exact ih

/-- C7 witness: from Placeholder, a Confirm press followed by a letter
press changes nothing. -/
theorem C7_placeholder_absorbing_witness :
    runEvents { initState with state := Scr.NEXT_PAGE }
        [⟨PyKey.K_SPACE, some ' '⟩, ⟨PyKey.K_w, some 'w'⟩] =
      { initState with state := Scr.NEXT_PAGE } :=
  C7_placeholder_absorbing { initState with state := Scr.NEXT_PAGE } rfl
    [⟨PyKey.K_SPACE, some ' '⟩, ⟨PyKey.K_w, some 'w'⟩]

/-- Frame conditions of the dispatch: handling one key event only mutates
the fields belonging to the current screen (plus possibly the screen
identifier). -/
theorem handle_frame (e : KeyEvent) (s : UIState) :
    (s.state ≠ Scr.TITLE →
      (handle e s).title_focus_index = s.title_focus_index) ∧
    (s.state ≠ Scr.SETTINGS →
      (handle e s).settings_focus_index = s.settings_focus_index ∧
      (handle e s).vol_slider = s.vol_slider ∧
      (handle e s).bri_slider = s.bri_slider) ∧
    (s.state ≠ Scr.CHAR_SELECT →
      (handle e s).selected_char = s.selected_char) ∧
    (s.state ≠ Scr.NAME_SELECT →
      (handle e s).typed_name = s.typed_name) := by
  obtain ⟨k, u⟩ := e
  obtain ⟨st, tfi, sfi, vs, bs, sc, tn⟩ := s
  cases st <;> cases k <;> cases u <;>
    refine ⟨fun h => ?_, fun h => ⟨?_, ?_, ?_⟩, fun h => ?_, fun h => ?_⟩ <;>
    first
      | exact absurd rfl h
      | rfl
      | (simp only [handle]; split_ifs <;> rfl)

/-- C8: handling one key event only mutates the fields belonging to the
current screen (plus possibly the screen identifier): the title focus can
change only on Title; the settings focus and the two sliders only on
Settings; the selected character only on CharacterSelect; the name buffer
only on NameEntry.  In particular Settings events leave the selected
character and name buffer alone, and Credits events leave all of these
fields alone. -/
theorem C8_handle_frame_conditions (e : KeyEvent) (s : UIState) :
    (s.state ≠ Scr.TITLE →
      (handle e s).title_focus_index = s.title_focus_index) ∧
    (s.state ≠ Scr.SETTINGS →
      (handle e s).settings_focus_index = s.settings_focus_index ∧
      (handle e s).vol_slider = s.vol_slider ∧
      (handle e s).bri_slider = s.bri_slider) ∧
    (s.state ≠ Scr.CHAR_SELECT →
      (handle e s).selected_char = s.selected_char) ∧
    (s.state ≠ Scr.NAME_SELECT →
      (handle e s).typed_name = s.typed_name) :=
  handle_frame e s

/-- C8 witness: a Confirm press on the initial Title screen leaves the
settings focus, both sliders, the selected character and the name buffer
unchanged. -/
theorem C8_handle_frame_conditions_witness :
    (handle ⟨PyKey.K_SPACE, some ' '⟩ initState).settings_focus_index =
        initState.settings_focus_index ∧
    (handle ⟨PyKey.K_SPACE, some ' '⟩ initState).selected_char =
        initState.selected_char ∧
    (handle ⟨PyKey.K_SPACE, some ' '⟩ initState).typed_name =
        initState.typed_name :=
  ⟨((C8_handle_frame_conditions ⟨PyKey.K_SPACE, some ' '⟩ initState).2.1
      (by decide)).1,
   (C8_handle_frame_conditions ⟨PyKey.K_SPACE, some ' '⟩ initState).2.2.1
      (by decide),
   (C8_handle_frame_conditions ⟨PyKey.K_SPACE, some ' '⟩ initState).2.2.2
      (by decide)⟩

/-- C9: on the NameEntry screen with room in the buffer, the directional
keys W/A/S/D double as printable input: their events carry the letters
'w'/'a'/'s'/'d', which are appended to the buffer rather than ignored. -/
theorem C9_wasd_letters_append (s : UIState)
    (hs : s.state = Scr.NAME_SELECT) (hlen : s.typed_name.length < 16) :
    (handle ⟨PyKey.K_w, some 'w'⟩ s).typed_name = s.typed_name ++ ['w'] ∧
    (handle ⟨PyKey.K_a, some 'a'⟩ s).typed_name = s.typed_name ++ ['a'] ∧
    (handle ⟨PyKey.K_s, some 's'⟩ s).typed_name = s.typed_name ++ ['s'] ∧
    (handle ⟨PyKey.K_d, some 'd'⟩ s).typed_name = s.typed_name ++ ['d'] := by
  obtain ⟨st, tfi, sfi, vs, bs, sc, tn⟩ := s
  obtain rfl : st = Scr.NAME_SELECT := hs
  have hw : pyIsPrintable 'w' = true := by decide
  have ha : pyIsPrintable 'a' = true := by decide
  have hsC : pyIsPrintable 's' = true := by decide
  have hd : pyIsPrintable 'd' = true := by decide
  refine ⟨?_, ?_, ?_, ?_⟩ <;> simp [handle, hw, ha, hsC, hd, hlen]

/-- C9 witness: on NameEntry with an empty buffer, pressing W appends
'w'. -/
theorem C9_wasd_letters_append_witness :
    (handle ⟨PyKey.K_w, some 'w'⟩
        { initState with state := Scr.NAME_SELECT }).typed_name =
      ([] : List Char) ++ ['w'] :=
  (C9_wasd_letters_append { initState with state := Scr.NAME_SELECT } rfl
    (by decide)).1

/-- A key event as the pygame keyboard can actually deliver it: the only
key whose `unicode` is the space character is the space bar itself
(which the NameEntry dispatch consumes as Confirm). -/
def KeyEvent.wf (e : KeyEvent) : Prop :=
  e.unicode = some ' ' → e.key = PyKey.K_SPACE

/-- Handling one keyboard-deliverable event never puts a space character
into the name buffer. -/
theorem handle_no_space (e : KeyEvent) (s : UIState) (he : e.wf)
    (hn : ' ' ∉ s.typed_name) : ' ' ∉ (handle e s).typed_name := by
  by_cases hst : s.state = Scr.NAME_SELECT
  · obtain ⟨k, u⟩ := e
    obtain ⟨st, tfi, sfi, vs, bs, sc, tn⟩ := s
    obtain rfl : st = Scr.NAME_SELECT := hst
    cases u with
    | none =>
      cases k <;>
        first
          | exact hn
          | (intro hmem; exact hn (List.mem_of_mem_dropLast hmem))
    | some ch =>
      by_cases hch : ch = ' '
      · subst hch
        cases k <;>
          first
            | exact absurd (he rfl) (by decide)
            | exact hn
      · cases k <;>
          first
            | exact hn
            | (intro hmem; exact hn (List.mem_of_mem_dropLast hmem))
            | (simp only [handle]
               split_ifs <;>
                 first
                   | exact hn
                   | (intro hmem
                      rcases List.mem_append.mp hmem with h1 | h1
                      · exact hn h1
                      · exact hch (List.mem_singleton.mp h1).symm))
  · rw [(handle_frame e s).2.2.2 hst]
    exact hn

/-- C10: starting from the initial state, no sequence of keyboard events
can put a space into the name buffer: on NameEntry the space bar is
consumed as Confirm before the printable-append branch sees it, and no
other screen mutates the buffer. -/
theorem C10_no_space_in_typed_name (events : List KeyEvent)
    (hwf : ∀ e ∈ events, e.wf) :
    ' ' ∉ (runEvents initState events).typed_name := by
  suffices h : ∀ (es : List KeyEvent) (s : UIState), (∀ e ∈ es, e.wf) →
      ' ' ∉ s.typed_name → ' ' ∉ (runEvents s es).typed_name by
    exact h events initState hwf (by decide)
  intro es
  induction es with
  | nil => exact fun s _ hn => hn
  | cons e es ih =>
    intro s hwf2 hn
    simp only [runEvents, List.foldl_cons]
    exact ih (handle e s)
      (fun x hx => hwf2 x (List.mem_cons_of_mem e hx))
      (handle_no_space e s (hwf2 e (List.mem_cons_self e es)) hn)

/-- C10 witness: typing the name "hi" on the way to the Placeholder screen
leaves no space in the buffer. -/
theorem C10_no_space_in_typed_name_witness :
    ' ' ∉ (runEvents initState
      [⟨PyKey.K_SPACE, some ' '⟩, ⟨PyKey.K_SPACE, some ' '⟩,
       ⟨PyKey.K_OTHER, some 'h'⟩, ⟨PyKey.K_OTHER, some 'i'⟩]).typed_name :=
  C10_no_space_in_typed_name
    [⟨PyKey.K_SPACE, some ' '⟩, ⟨PyKey.K_SPACE, some ' '⟩,
     ⟨PyKey.K_OTHER, some 'h'⟩, ⟨PyKey.K_OTHER, some 'i'⟩]
    (by intro e he; fin_cases he <;> intro h <;> first | rfl | exact absurd h (by decide))

end PixelRpg
